import Mathlib

/-!
# A shallow embedding of the bible-api query core (book.rs, chapter.rs, params.rs, search.rs)

This file translates the query parser and selection resolver of the repository
into Lean and proves the frozen claims about it.

Modelling conventions:

* Rust `&str` values are modelled as `List Char`; the public entry point
  `search` takes a `String` and works on its character list.
* Rust `u8` values are modelled as `Nat`; `str::parse::<u8>` is modelled by
  `parseU8`, which fails on values above 255 exactly as the source does.
* `HashSet<u8>` is modelled as `Finset Nat`.
* Rust panics (`unwrap` on `None`, `panic!`) are modelled explicitly: functions
  that can panic return an `Option` layer (with `none` = panic) or the
  `Outcome.panic` constructor of the result type.  The mutual recursion of the
  fallback chain in search.rs is modelled with an explicit fuel parameter;
  running out of fuel is `Outcome.diverge`.
* The concrete regular expressions of book.rs and params.rs are transcribed
  into a small pattern AST `Pat`; `matchesP` enumerates parses in the
  backtracking preference order (greedy quantifiers, alternatives in written
  order), which reproduces the leftmost-first match semantics of the Rust
  `regex` crate used by the source.  The character classes `\s` (Unicode
  white space, as used by both the regex crate and `str::trim`) are listed in
  full; `\d` / `\D` are modelled on the ASCII digits (the source's regex crate
  would also count non-ASCII Unicode decimal digits, and its `(?i)` folds a
  few non-ASCII letters; the claims only concern ASCII-representable
  behaviour, and none of the proofs below depends on the exact contents of
  the classes).
* In the class `[\d|:|-|_|\s]` (NON_NAME_CHARS of book.rs) the fragment
  `|-|` parses as the one-character range from `|` to `|`, so the class is
  digits, white space, `|`, `:` and `_` — the literal `-` is not in it.
-/

namespace BibleApi

/-! ## Character classes -/

/-- The Unicode White_Space code points: this is the set matched by the regex
crate's `\s` and trimmed by Rust's `str::trim`. -/
def wsChars : List Char :=
  [Char.ofNat 0x9, Char.ofNat 0xA, Char.ofNat 0xB, Char.ofNat 0xC,
   Char.ofNat 0xD, ' ', Char.ofNat 0x85, Char.ofNat 0xA0, Char.ofNat 0x1680,
   Char.ofNat 0x2000, Char.ofNat 0x2001, Char.ofNat 0x2002, Char.ofNat 0x2003,
   Char.ofNat 0x2004, Char.ofNat 0x2005, Char.ofNat 0x2006, Char.ofNat 0x2007,
   Char.ofNat 0x2008, Char.ofNat 0x2009, Char.ofNat 0x200A, Char.ofNat 0x2028,
   Char.ofNat 0x2029, Char.ofNat 0x202F, Char.ofNat 0x205F, Char.ofNat 0x3000]

def isWs (c : Char) : Bool := wsChars.contains c

def isAsciiDigit (c : Char) : Bool := decide ('0' ≤ c) && decide (c ≤ '9')

/-- A character class of the transcribed patterns. -/
inductive CClass where
  /-- `\s` -/
  | ws : CClass
  /-- `\d` -/
  | digit : CClass
  /-- `\D` -/
  | nonDigit : CClass
  /-- `.` — any character except a newline (the regex crate's default) -/
  | dot : CClass
  /-- `[\d|:|-|_|\s]` (NON_NAME_CHARS); see the header note on its parse -/
  | nonName : CClass
  /-- a case-insensitive literal letter (the patterns carry the lowercase) -/
  | ic : Char → CClass
  /-- an exact literal character (digits and punctuation) -/
  | exact : Char → CClass
  /-- a case-insensitive class of characters, e.g. `[e|u]` -/
  | oneOfIC : List Char → CClass
deriving DecidableEq

def CClass.matchesChar : CClass → Char → Bool
  | .ws, c => isWs c
  | .digit, c => isAsciiDigit c
  | .nonDigit, c => !isAsciiDigit c
  | .dot, c => c != Char.ofNat 0xA
  | .nonName, c => isAsciiDigit c || isWs c || c == '|' || c == ':' || c == '_'
  | .ic l, c => c.toLower == l
  | .exact l, c => c == l
  | .oneOfIC ls, c => ls.contains c.toLower

/-! ## The pattern AST and its backtracking matcher -/

/-- Patterns, covering exactly the constructs appearing in the source's
regular expressions.  Quantifiers only ever apply to character classes in
those expressions, which keeps the matcher structurally recursive. -/
inductive Pat where
  | eps : Pat
  | cls : CClass → Pat
  /-- greedy `*` over a class -/
  | star : CClass → Pat
  /-- greedy `+` over a class -/
  | plus : CClass → Pat
  /-- greedy `?` -/
  | opt : Pat → Pat
  | seq2 : Pat → Pat → Pat
  /-- alternation; the left branch is preferred -/
  | alt2 : Pat → Pat → Pat
  /-- a named capture group -/
  | grp : String → Pat → Pat

/-- Capture environment: named groups with the text they consumed. -/
abbrev Caps := List (String × List Char)

/-- The suffixes remaining after the greedy `*` of a class, most-consumed
first (the backtracking preference order). -/
def starSuffixes (cc : CClass) : List Char → List (List Char)
  | [] => [[]]
  | a :: rest =>
    if cc.matchesChar a then starSuffixes cc rest ++ [a :: rest]
    else [a :: rest]

/-- All parses of a pattern against a prefix of `s`, as pairs of the captured
groups and the remaining suffix, in backtracking preference order (greedy
quantifiers first, alternatives in written order).  The head of this list is
the parse the Rust regex crate's leftmost-first semantics selects at this
start position. -/
def matchesP : Pat → List Char → List (Caps × List Char)
  | .eps, s => [([], s)]
  | .cls cc, s =>
    match s with
    | [] => []
    | a :: rest => if cc.matchesChar a then [([], rest)] else []
  | .star cc, s => (starSuffixes cc s).map (fun r => ([], r))
  | .plus cc, s =>
    match s with
    | [] => []
    | a :: rest =>
      if cc.matchesChar a then (starSuffixes cc rest).map (fun r => ([], r))
      else []
  | .opt p, s => matchesP p s ++ [([], s)]
  | .seq2 p q, s =>
    (matchesP p s).flatMap fun pr =>
      (matchesP q pr.2).map fun qr => (pr.1 ++ qr.1, qr.2)
  | .alt2 p q, s => matchesP p s ++ matchesP q s
  | .grp n p, s =>
    (matchesP p s).map fun pr =>
      ((n, s.take (s.length - pr.2.length)) :: pr.1, pr.2)

/-- Sequencing a list of patterns. -/
def pseq (ps : List Pat) : Pat := ps.foldr .seq2 .eps

/-- Alternation of a list of patterns, first preferred. -/
def palt : List Pat → Pat
  | [] => .cls (.oneOfIC [])
  | [p] => p
  | p :: rest => .alt2 p (palt rest)

/-- A case-insensitive literal word. -/
def pstr (s : String) : Pat := pseq (s.toList.map fun c => .cls (.ic c))

/-- The nested optional tail `(c₀(c₁(…)?)?)?` used throughout book.rs to
accept every prefix of a book name. -/
def optChain : List Char → Pat
  | [] => .eps
  | [c] => .opt (.cls (.ic c))
  | c :: rest => .opt (.seq2 (.cls (.ic c)) (optChain rest))

/-- First full (end-anchored) parse: the match selected for a `^…$` pattern,
returning its captures. -/
def fullCaps (p : Pat) (s : List Char) : Option Caps :=
  ((matchesP p s).find? fun pr => pr.2.isEmpty).map (·.1)

/-- `Regex::is_match` for a `^…$` pattern. -/
def isFullMatch (p : Pat) (s : List Char) : Bool := (fullCaps p s).isSome

/-- The suffixes of a list, longest first. -/
def tailsOf : List Char → List (List Char)
  | [] => [[]]
  | a :: rest => (a :: rest) :: tailsOf rest

/-- `Regex::is_match` for an unanchored pattern: some suffix has a parse. -/
def isMatchSomewhere (p : Pat) (s : List Char) : Bool :=
  (tailsOf s).any fun t => !(matchesP p t).isEmpty

/-! ## String utilities mirroring the Rust standard library -/

/-- `str::trim`. -/
def trimChars (l : List Char) : List Char :=
  ((l.dropWhile isWs).reverse.dropWhile isWs).reverse

/-- `str::split(',')`: `n` commas give `n + 1` pieces, empties kept. -/
def splitComma : List Char → List (List Char)
  | [] => [[]]
  | c :: rest =>
    let r := splitComma rest
    if c = ',' then [] :: r
    else (c :: r.headI) :: r.tail

/-- Does `needle` start `hay`? -/
def leadsWith : List Char → List Char → Bool
  | [], _ => true
  | _ :: _, [] => false
  | a :: as, b :: bs => a == b && leadsWith as bs

/-- One scanning step bounded by fuel (the fuel is set to the haystack length,
which always suffices: every step consumes at least one character). -/
def replaceAllGo (needle : List Char) : Nat → List Char → List Char
  | 0, rest => rest
  | _ + 1, [] => []
  | f + 1, h :: t =>
    if needle ≠ [] ∧ leadsWith needle (h :: t) then
      replaceAllGo needle f (t.drop (needle.length - 1))
    else h :: replaceAllGo needle f t

/-- `str::replace(needle, "")`: removes every non-overlapping occurrence of
`needle`, scanning left to right. -/
def replaceAll (needle hay : List Char) : List Char :=
  replaceAllGo needle hay.length hay

/-- `str::parse::<u8>`: an optional leading `+`, then one or more ASCII
digits, value at most 255. -/
def parseU8 (l : List Char) : Option Nat :=
  let ds := match l with
    | '+' :: rest => rest
    | _ => l
  if ds ≠ [] ∧ ds.all isAsciiDigit then
    let v := ds.foldl (fun acc c => 10 * acc + (c.toNat - 48)) 0
    if v ≤ 255 then some v else none
  else none

/-! ## book.rs: the ordinal and book-name patterns -/

/-- `ONES = one|fst|first|1(st)?|i\s+` (case-insensitive). -/
def onesPat : Pat :=
  palt [pstr "one", pstr "fst", pstr "first",
    pseq [.cls (.exact '1'), .opt (pstr "st")],
    pseq [.cls (.ic 'i'), .plus .ws]]

/-- `TWOS = two|sec(o(n(d)?)?)?|2(nd)?|ii\s+` (case-insensitive). -/
def twosPat : Pat :=
  palt [pstr "two",
    pseq [pstr "sec", optChain "ond".toList],
    pseq [.cls (.exact '2'), .opt (pstr "nd")],
    pseq [.cls (.ic 'i'), .cls (.ic 'i'), .plus .ws]]

/-- `THREES = thr(e(e)?)?|thi(r(d)?)?|3(rd)?|iii\s+` (case-insensitive). -/
def threesPat : Pat :=
  palt [pseq [pstr "thr", optChain "ee".toList],
    pseq [pstr "thi", optChain "rd".toList],
    pseq [.cls (.exact '3'), .opt (pstr "rd")],
    pseq [.cls (.ic 'i'), .cls (.ic 'i'), .cls (.ic 'i'), .plus .ws]]

/-- `(?<book_num>ONES|TWOS|THREES)`. -/
def bookNumAlt : Pat := palt [onesPat, twosPat, threesPat]

/-- `get_book_regex`: `\s*(?<book_num>…)?\s*(?<book_text>\D+)\s*`. -/
def bookRegexPat : Pat :=
  pseq [.star .ws, .opt (.grp "book_num" bookNumAlt), .star .ws,
    .grp "book_text" (.plus .nonDigit), .star .ws]

/-- A book pattern without an ordinal: `^req(chain…)?{NON_NAME_CHARS}*$`. -/
def noOrd (req tail : String) : Pat :=
  pseq [pstr req, optChain tail.toList, .star .nonName]

/-- A book pattern with an ordinal prefix:
`^({ord})\s*req(chain…)?{NON_NAME_CHARS}*$`. -/
def withOrd (ord : Pat) (req tail : String) : Pat :=
  pseq [ord, .star .ws, pstr req, optChain tail.toList, .star .nonName]

/-- Deuteronomy: `^d[e|u]([e|u](t(e(r(o(n(o(m(y)?)?)?)?)?)?)?)?)?{NON}*$`. -/
def deutPat : Pat :=
  pseq [.cls (.ic 'd'), .cls (.oneOfIC ['e', '|', 'u']),
    .opt (pseq [.cls (.oneOfIC ['e', '|', 'u']), optChain "teronomy".toList]),
    .star .nonName]

/-- Song of Solomon:
`^s(o(n(g\s*(o(f\s*(s(o(l(o(m(o(n)?)?)?)?)?)?)?)?)?)?)?)?{NON}*$`. -/
def songPat : Pat :=
  pseq [.cls (.ic 's'),
    .opt (pseq [.cls (.ic 'o'),
      .opt (pseq [.cls (.ic 'n'),
        .opt (pseq [.cls (.ic 'g'), .star .ws,
          .opt (pseq [.cls (.ic 'o'),
            .opt (pseq [.cls (.ic 'f'), .star .ws,
              .opt (pseq [.cls (.ic 's'), optChain "olomon".toList])])])])])]),
    .star .nonName]

/-- The `book_matcher` table of `get_proper_title`, in the order of the
source listing (the source iterates a `HashMap` in arbitrary order; §9 of the
spec records that the patterns are designed to be mutually exclusive, so the
order is immaterial). -/
def bookMatcher : List (String × Pat) :=
  [("1 Chronicles", withOrd onesPat "ch" "ronicles"),
   ("1 Corinthians", withOrd onesPat "co" "rinthians"),
   ("1 John", withOrd onesPat "j" "ohn"),
   ("1 Kings", withOrd onesPat "k" "ings"),
   ("1 Peter", withOrd onesPat "p" "eter"),
   ("1 Samuel", withOrd onesPat "sam" "uel"),
   ("1 Thessalonians", withOrd onesPat "th" "essalonians"),
   ("1 Timothy", withOrd onesPat "ti" "mothy"),
   ("2 Chronicles", withOrd twosPat "ch" "ronicles"),
   ("2 Corinthians", withOrd twosPat "co" "rinthians"),
   ("2 John", withOrd twosPat "j" "ohn"),
   ("2 Kings", withOrd twosPat "k" "ings"),
   ("2 Peter", withOrd twosPat "p" "eter"),
   ("2 Samuel", withOrd twosPat "s" "amuel"),
   ("2 Thessalonians", withOrd twosPat "th" "essalonians"),
   ("2 Timothy", withOrd twosPat "ti" "mothy"),
   ("3 John", withOrd threesPat "jo" "hn"),
   ("Acts", noOrd "ac" "ts"),
   ("Amos", noOrd "am" "os"),
   ("Colossians", noOrd "co" "lossians"),
   ("Daniel", noOrd "da" "niel"),
   ("Deuteronomy", deutPat),
   ("Ecclesiastes", noOrd "ec" "clesiastes"),
   ("Ephesians", noOrd "ep" "hesians"),
   ("Esther", noOrd "es" "ther"),
   ("Exodus", noOrd "ex" "odus"),
   ("Ezekiel", noOrd "eze" "kiel"),
   ("Ezra", noOrd "ezr" "a"),
   ("Galatians", noOrd "ga" "latians"),
   ("Genesis", noOrd "ge" "nesis"),
   ("Habakkuk", noOrd "hab" "akkuk"),
   ("Haggai", noOrd "hag" "gai"),
   ("Hebrews", noOrd "he" "brews"),
   ("Hosea", noOrd "ho" "sea"),
   ("Isaiah", noOrd "is" "aiah"),
   ("James", noOrd "ja" "mes"),
   ("Jeremiah", noOrd "je" "remiah"),
   ("Job", noOrd "job" ""),
   ("Joel", noOrd "joe" "l"),
   ("John", noOrd "joh" "n"),
   ("Jonah", noOrd "jon" "ah"),
   ("Joshua", noOrd "jos" "hua"),
   ("Jude", noOrd "jude" ""),
   ("Judges", noOrd "judg" "es"),
   ("Lamentations", noOrd "la" "mentations"),
   ("Leviticus", noOrd "le" "viticus"),
   ("Luke", noOrd "lu" "ke"),
   ("Malachi", noOrd "mal" "achi"),
   ("Mark", noOrd "mar" "k"),
   ("Matthew", noOrd "mat" "thew"),
   ("Micah", noOrd "mi" "cah"),
   ("Nahum", noOrd "na" "hum"),
   ("Nehemiah", noOrd "ne" "hemiah"),
   ("Numbers", noOrd "nu" "mbers"),
   ("Obadiah", noOrd "o" "badiah"),
   ("Philemon", noOrd "phile" "mon"),
   ("Philippians", noOrd "phili" "ppians"),
   ("Proverbs", noOrd "pr" "overbs"),
   ("Psalms", noOrd "ps" "alms"),
   ("Revelation", noOrd "re" "velation"),
   ("Romans", noOrd "ro" "mans"),
   ("Ruth", noOrd "ru" "th"),
   ("Song of Solomon", songPat),
   ("Titus", noOrd "ti" "tus"),
   ("Zechariah", noOrd "zec" "hariah"),
   ("Zephaniah", noOrd "zep" "haniah")]

/-- `get_proper_title`: return the key of the first matching book pattern. -/
def getProperTitle (title : List Char) : Option String :=
  bookMatcher.findSome? fun p => if isFullMatch p.2 title then some p.1 else none

/-- `get_book_num_string`: classify the captured ordinal by unanchored
`is_match` against THREES, then TWOS, then ONES; the final branch is
`panic!("Invalid book number…")`, modelled as `none`. -/
def getBookNumString (bookNum : List Char) : Option (List Char) :=
  if isMatchSomewhere threesPat bookNum then some ['3', ' ']
  else if isMatchSomewhere twosPat bookNum then some ['2', ' ']
  else if isMatchSomewhere onesPat bookNum then some ['1', ' ']
  else none

/-- `format_title`. -/
def formatTitle (bookNum bookText : List Char) : Option (List Char) :=
  let trimmed := trimChars bookText
  if trimmed = [] then none else some (bookNum ++ trimmed)

/-- The leftmost-first match of the book regex: scan start positions left to
right, take the first preference-ordered parse; return the captures and the
matched region (capture 0). -/
def headMatchAux : List Char → Option (Caps × List Char)
  | [] =>
    match (matchesP bookRegexPat []).head? with
    | some pr => some (pr.1, [])
    | none => none
  | a :: rest =>
    match (matchesP bookRegexPat (a :: rest)).head? with
    | some pr =>
      some (pr.1, (a :: rest).take ((a :: rest).length - pr.2.length))
    | none => headMatchAux rest

def headMatch (query : List Char) : Option (Caps × List Char) :=
  headMatchAux query

/-- `get_title_from_captures`; the outer `Option` is the panic of
`get_book_num_string`, the inner one is the Rust `Option`. -/
def getTitleFromCaptures (caps : Caps) : Option (Option (List Char)) :=
  let bnStep : Option (List Char) :=
    match caps.lookup "book_num" with
    | some data => getBookNumString data
    | none => some []
  match bnStep with
  | none => none
  | some bookNum =>
    some (match caps.lookup "book_text" with
      | none => none
      | some bt => formatTitle bookNum bt)

/-- `get_title`; the outer `Option` is the (unreachable) ordinal panic, the
inner one is the Rust `Option<String>`. -/
def getTitle (query : List Char) : Option (Option String) :=
  match headMatch query with
  | none => some none
  | some (caps, _) =>
    match getTitleFromCaptures caps with
    | none => none
    | some none => some none
    | some (some t) => some (getProperTitle t)

/-- `get_params`: strip every occurrence of capture 0 from the query
(`str::replace`), `None` if the remainder is empty. -/
def getParams (query : List Char) : Option (List Char) :=
  match headMatch query with
  | none => none
  | some (_, c0) =>
    let params := replaceAll c0 query
    if params ≠ [] then some params else none

/-! ## chapter.rs: the chapter-count table -/

/-- The `chapter_counts` table of `get_chapter_count_by_book`. -/
def chapterCounts : List (String × Nat) :=
  [("1 Chronicles", 29), ("1 Corinthians", 16), ("1 John", 5), ("1 Kings", 22),
   ("1 Peter", 5), ("1 Samuel", 31), ("1 Thessalonians", 5), ("1 Timothy", 6),
   ("2 Chronicles", 36), ("2 Corinthians", 13), ("2 John", 1), ("2 Kings", 25),
   ("2 Peter", 3), ("2 Samuel", 24), ("2 Thessalonians", 3), ("2 Timothy", 4),
   ("3 John", 1), ("Acts", 28), ("Amos", 9), ("Colossians", 4), ("Daniel", 12),
   ("Deuteronomy", 34), ("Ecclesiastes", 12), ("Ephesians", 6), ("Esther", 10),
   ("Exodus", 40), ("Ezekiel", 48), ("Ezra", 10), ("Galatians", 6),
   ("Genesis", 50), ("Habakkuk", 3), ("Haggai", 2), ("Hebrews", 13),
   ("Hosea", 14), ("Isaiah", 66), ("James", 5), ("Jeremiah", 52), ("Job", 42),
   ("Joel", 3), ("John", 21), ("Jonah", 4), ("Joshua", 24), ("Jude", 1),
   ("Judges", 21), ("Lamentations", 5), ("Leviticus", 27), ("Luke", 24),
   ("Malachi", 4), ("Mark", 16), ("Matthew", 28), ("Micah", 7), ("Nahum", 3),
   ("Nehemiah", 13), ("Numbers", 36), ("Obadiah", 1), ("Philemon", 1),
   ("Philippians", 4), ("Proverbs", 31), ("Psalms", 150), ("Revelation", 22),
   ("Romans", 16), ("Ruth", 4), ("Song of Solomon", 8), ("Titus", 3),
   ("Zechariah", 14), ("Zephaniah", 3)]

/-- `get_chapter_count_by_book`. -/
def getChapterCountByBook (book : String) : Option Nat :=
  chapterCounts.lookup book

/-- `chapter_exists_in_book`. -/
def chapterExistsInBook (book : String) (chapter : Nat) : Bool :=
  match getChapterCountByBook book with
  | some numChapters => decide (1 ≤ chapter) && decide (chapter ≤ numChapters)
  | none => false

/-- The 66 canonical titles, exactly as the canon table keys them. -/
def canonicalTitles : List String := chapterCounts.map Prod.fst

/-! ## verse.rs (missing from the sources): the verse-count table -/

/-- Modelled from the spec: the module `verse` is declared in main.rs and
search.rs imports `get_verse_count_by_book_and_chapter`,
`get_verse_range_from_params` and `verse_exists_in_chapter` from it, but the
file src/verse.rs is not among the sources.  §4.A of the spec requires the
canon table to carry, for each canonical book, "the standard per-chapter
verse counts" (length equal to the chapter count, each entry ≥ 1, maximum
176 = Psalm 119); this is the standard KJV versification.  The values the
claims exercise agree with the source's tests (1 John has 10, 29, 24, 21, 21
verses; 3 John 14; John 1 has 51; Song of Solomon 2 has 17; 1 Chronicles 29
has 30). -/
def verseCounts : List (String × List Nat) :=
  [("1 Chronicles", [54, 55, 24, 43, 26, 81, 40, 40, 44, 14, 47, 40, 14, 17,
     29, 43, 27, 17, 19, 8, 30, 19, 32, 31, 31, 32, 34, 21, 30]),
   ("1 Corinthians", [31, 16, 23, 21, 13, 20, 40, 13, 27, 33, 34, 31, 13, 40,
     58, 24]),
   ("1 John", [10, 29, 24, 21, 21]),
   ("1 Kings", [53, 46, 28, 34, 18, 38, 51, 66, 28, 29, 43, 33, 34, 31, 34,
     34, 24, 46, 21, 43, 29, 53]),
   ("1 Peter", [25, 25, 22, 19, 14]),
   ("1 Samuel", [28, 36, 21, 22, 12, 21, 17, 22, 27, 27, 15, 25, 23, 52, 35,
     23, 58, 30, 24, 42, 15, 23, 29, 22, 44, 25, 12, 25, 11, 31, 13]),
   ("1 Thessalonians", [10, 20, 13, 18, 28]),
   ("1 Timothy", [20, 14, 16, 16, 25, 21]),
   ("2 Chronicles", [17, 18, 17, 22, 14, 42, 22, 18, 31, 19, 23, 16, 22, 15,
     19, 14, 19, 34, 11, 37, 20, 12, 21, 27, 28, 23, 9, 27, 36, 27, 21, 33,
     25, 33, 27, 23]),
   ("2 Corinthians", [24, 17, 18, 18, 21, 18, 16, 24, 15, 18, 33, 21, 14]),
   ("2 John", [13]),
   ("2 Kings", [18, 25, 27, 44, 27, 33, 20, 29, 37, 36, 21, 21, 25, 29, 38,
     20, 41, 37, 37, 21, 26, 20, 37, 20, 30]),
   ("2 Peter", [21, 22, 18]),
   ("2 Samuel", [27, 32, 39, 12, 25, 23, 29, 18, 13, 19, 27, 31, 39, 33, 37,
     23, 29, 33, 43, 26, 22, 51, 39, 25]),
   ("2 Thessalonians", [12, 17, 18]),
   ("2 Timothy", [18, 26, 17, 22]),
   ("3 John", [14]),
   ("Acts", [26, 47, 26, 37, 42, 15, 60, 40, 43, 48, 30, 25, 52, 28, 41, 40,
     34, 28, 41, 38, 40, 30, 35, 27, 27, 32, 44, 31]),
   ("Amos", [15, 16, 15, 13, 27, 14, 17, 14, 15]),
   ("Colossians", [29, 23, 25, 18]),
   ("Daniel", [21, 49, 30, 37, 31, 28, 28, 27, 27, 21, 45, 13]),
   ("Deuteronomy", [46, 37, 29, 49, 33, 25, 26, 20, 29, 22, 32, 32, 18, 29,
     23, 22, 20, 22, 21, 20, 23, 30, 25, 22, 19, 19, 26, 68, 29, 20, 30, 52,
     29, 12]),
   ("Ecclesiastes", [18, 26, 22, 16, 20, 12, 29, 17, 18, 20, 10, 14]),
   ("Ephesians", [23, 22, 21, 32, 33, 24]),
   ("Esther", [22, 23, 15, 17, 14, 14, 10, 17, 32, 3]),
   ("Exodus", [22, 25, 22, 31, 23, 30, 25, 32, 35, 29, 10, 51, 22, 31, 27,
     36, 16, 27, 25, 26, 36, 31, 33, 18, 40, 37, 21, 43, 46, 38, 18, 35, 23,
     35, 35, 38, 29, 31, 43, 38]),
   ("Ezekiel", [28, 10, 27, 17, 17, 14, 27, 18, 11, 22, 25, 28, 23, 23, 8,
     63, 24, 32, 14, 49, 32, 31, 49, 27, 17, 21, 36, 26, 21, 26, 18, 32, 33,
     31, 15, 38, 28, 23, 29, 49, 26, 20, 27, 31, 25, 24, 23, 35]),
   ("Ezra", [11, 70, 13, 24, 17, 22, 28, 36, 15, 44]),
   ("Galatians", [24, 21, 29, 31, 26, 18]),
   ("Genesis", [31, 25, 24, 26, 32, 22, 24, 22, 29, 32, 32, 20, 18, 24, 21,
     16, 27, 33, 38, 18, 34, 24, 20, 67, 34, 35, 46, 22, 35, 43, 55, 32, 20,
     31, 29, 43, 36, 30, 23, 23, 57, 38, 34, 34, 28, 34, 31, 22, 33, 26]),
   ("Habakkuk", [17, 20, 19]),
   ("Haggai", [15, 23]),
   ("Hebrews", [14, 18, 19, 16, 14, 20, 28, 13, 28, 39, 40, 29, 25]),
   ("Hosea", [11, 23, 5, 19, 15, 11, 16, 14, 17, 15, 12, 14, 16, 9]),
   ("Isaiah", [31, 22, 26, 6, 30, 13, 25, 22, 21, 34, 16, 6, 22, 32, 9, 14,
     14, 7, 25, 6, 17, 25, 18, 23, 12, 21, 13, 29, 24, 33, 9, 20, 24, 17,
     10, 22, 38, 22, 8, 31, 29, 25, 28, 28, 25, 13, 15, 22, 26, 11, 23, 15,
     12, 17, 13, 12, 21, 14, 21, 22, 11, 12, 19, 12, 25, 24]),
   ("James", [27, 26, 18, 17, 20]),
   ("Jeremiah", [19, 37, 25, 31, 31, 30, 34, 22, 26, 25, 23, 17, 27, 22, 21,
     21, 27, 23, 15, 18, 14, 30, 40, 10, 38, 24, 22, 17, 32, 24, 40, 44, 26,
     22, 19, 32, 21, 28, 18, 16, 18, 22, 13, 30, 5, 28, 7, 47, 39, 46, 64,
     34]),
   ("Job", [22, 13, 26, 21, 27, 30, 21, 22, 35, 22, 20, 25, 28, 22, 35, 22,
     16, 21, 29, 29, 34, 30, 17, 25, 6, 14, 23, 28, 25, 31, 40, 22, 33, 37,
     16, 33, 24, 41, 30, 24, 34, 17]),
   ("Joel", [20, 32, 21]),
   ("John", [51, 25, 36, 54, 47, 71, 53, 59, 41, 42, 57, 50, 38, 31, 27, 33,
     26, 40, 42, 31, 25]),
   ("Jonah", [17, 10, 10, 11]),
   ("Joshua", [18, 24, 17, 24, 15, 27, 26, 35, 27, 43, 23, 24, 33, 15, 63,
     10, 18, 28, 51, 9, 45, 34, 16, 33]),
   ("Jude", [25]),
   ("Judges", [36, 23, 31, 24, 31, 40, 25, 35, 57, 18, 40, 15, 25, 20, 20,
     31, 13, 31, 30, 48, 25]),
   ("Lamentations", [22, 22, 66, 22, 22]),
   ("Leviticus", [17, 16, 17, 35, 19, 30, 38, 36, 24, 20, 47, 8, 59, 57, 33,
     34, 16, 30, 37, 27, 24, 33, 44, 23, 55, 46, 34]),
   ("Luke", [80, 52, 38, 44, 39, 49, 50, 56, 62, 42, 54, 59, 35, 35, 32, 31,
     37, 43, 48, 47, 38, 71, 56, 53]),
   ("Malachi", [14, 17, 18, 6]),
   ("Mark", [45, 28, 35, 41, 43, 56, 37, 38, 50, 52, 33, 44, 37, 72, 47,
     20]),
   ("Matthew", [25, 23, 17, 25, 48, 34, 29, 34, 38, 42, 30, 50, 58, 36, 39,
     28, 27, 35, 30, 34, 46, 46, 39, 51, 46, 75, 66, 20]),
   ("Micah", [16, 13, 12, 13, 15, 16, 20]),
   ("Nahum", [15, 13, 19]),
   ("Nehemiah", [11, 20, 32, 23, 19, 19, 73, 18, 38, 39, 36, 47, 31]),
   ("Numbers", [54, 34, 51, 49, 31, 27, 89, 26, 23, 36, 35, 16, 33, 45, 41,
     50, 13, 32, 22, 29, 35, 41, 30, 25, 18, 65, 23, 31, 40, 16, 54, 42, 56,
     29, 34, 13]),
   ("Obadiah", [21]),
   ("Philemon", [25]),
   ("Philippians", [30, 30, 21, 23]),
   ("Proverbs", [33, 22, 35, 27, 23, 35, 27, 36, 18, 32, 31, 28, 25, 35, 33,
     33, 28, 24, 29, 30, 31, 29, 35, 34, 28, 28, 27, 28, 27, 33, 31]),
   ("Psalms", [6, 12, 8, 8, 12, 10, 17, 9, 20, 18, 7, 8, 6, 7, 5, 11, 15,
     50, 14, 9, 13, 31, 6, 10, 22, 12, 14, 9, 11, 12, 24, 11, 22, 22, 28,
     12, 40, 22, 13, 17, 13, 11, 5, 26, 17, 11, 9, 14, 20, 23, 19, 9, 6, 7,
     23, 13, 11, 11, 17, 12, 8, 12, 11, 10, 13, 20, 7, 35, 36, 5, 24, 20,
     28, 23, 10, 12, 20, 72, 13, 19, 16, 8, 18, 12, 13, 17, 7, 18, 52, 17,
     16, 15, 5, 23, 11, 13, 12, 9, 9, 5, 8, 28, 22, 35, 45, 48, 43, 13, 31,
     7, 10, 10, 9, 8, 18, 19, 2, 29, 176, 7, 8, 9, 4, 8, 5, 6, 5, 6, 8, 8,
     3, 18, 3, 3, 21, 26, 9, 8, 24, 13, 10, 7, 12, 15, 21, 10, 20, 14, 9,
     6]),
   ("Revelation", [20, 29, 22, 11, 14, 17, 17, 13, 21, 11, 19, 17, 18, 20,
     8, 21, 18, 24, 21, 15, 27, 21]),
   ("Romans", [32, 29, 31, 25, 21, 23, 25, 39, 33, 21, 36, 21, 14, 23, 33,
     27]),
   ("Ruth", [22, 23, 18, 22]),
   ("Song of Solomon", [17, 17, 11, 16, 16, 13, 13, 14]),
   ("Titus", [16, 15, 15]),
   ("Zechariah", [21, 13, 10, 14, 11, 15, 14, 23, 17, 12, 17, 14, 9, 21]),
   ("Zephaniah", [18, 15, 20])]

/-- Modelled from the spec (missing src/verse.rs): `verse_count(title,
chapter)` returns the verse count for a chapter, or none if the title is not
canonical or the chapter is out of range (§4.A). -/
def getVerseCountByBookAndChapter (book : String) (chapter : Nat) : Option Nat :=
  match verseCounts.lookup book with
  | some vs => if 1 ≤ chapter then vs.get? (chapter - 1) else none
  | none => none

/-- Modelled from the spec (missing src/verse.rs): a verse exists iff it lies
in `[1, verse_count(book, chapter)]`, mirroring `chapter_exists_in_book`. -/
def verseExistsInChapter (book : String) (chapter verse : Nat) : Bool :=
  match getVerseCountByBookAndChapter book chapter with
  | some n => decide (1 ≤ verse) && decide (verse ≤ n)
  | none => false

/-- Modelled from the spec (missing src/verse.rs): §4.D — the requested range
 is intersected with `[1, verse_count]` ("clamped"); an empty intersection
yields `None` (which `unwrap_verse_range` turns into the error that triggers
the chapter fallback). -/
def getVerseRangeFromParams (book : String) (chapter s e : Nat) :
    Option (Finset Nat) :=
  match getVerseCountByBookAndChapter book chapter with
  | none => none
  | some cnt =>
    let inter := Finset.Icc s e ∩ Finset.Icc 1 cnt
    if inter = ∅ then none else some inter

/-! ## params.rs: search types and the reference parser -/

inductive SearchType where
  | Book : SearchType
  | Chapter : SearchType
  | Verse : SearchType
  | VerseRange : SearchType
deriving DecidableEq

structure BookParams where
  search_type : SearchType
  title : String
  chapter : Option Nat
  verse_start : Option Nat
  verse_end : Option Nat
deriving DecidableEq

/-- `match_or_none`: look the named capture up and parse it as `u8`; a failed
parse is `None`. -/
def matchOrNone (caps : Caps) (name : String) : Option Nat :=
  match caps.lookup name with
  | some s => parseU8 s
  | none => none

/-- `get_match_data` for one of the three anchored numeric patterns (their
`Regex::new` never fails, so the `.ok()?` there is immaterial). -/
def getMatchData (title : String) (params : List Char) (st : SearchType)
    (pat : Pat) : Option BookParams :=
  match fullCaps pat params with
  | some caps =>
    some ⟨st, title, matchOrNone caps "chapter", matchOrNone caps "verse_start",
      matchOrNone caps "verse_end"⟩
  | none => none

/-- `\d{1,3}`, greedy. -/
def d13 : Pat := pseq [.cls .digit, .opt (pseq [.cls .digit, .opt (.cls .digit)])]

/-- `^\s*(?<chapter>\d{1,3}).*$` -/
def chapterPat : Pat := pseq [.star .ws, .grp "chapter" d13, .star .dot]

/-- `^\s*(?<chapter>\d{1,3})\s*:\s*(?<verse_start>\d{1,3}).*$` -/
def versePat : Pat :=
  pseq [.star .ws, .grp "chapter" d13, .star .ws, .cls (.exact ':'), .star .ws,
    .grp "verse_start" d13, .star .dot]

/-- `^\s*(?<chapter>\d{1,3})\s*:\s*(?<verse_start>\d{1,3})\s*-\s*(?<verse_end>\d{1,3}).*$` -/
def verseRangePat : Pat :=
  pseq [.star .ws, .grp "chapter" d13, .star .ws, .cls (.exact ':'), .star .ws,
    .grp "verse_start" d13, .star .ws, .cls (.exact '-'), .star .ws,
    .grp "verse_end" d13, .star .dot]

def getBook (title : String) : BookParams :=
  ⟨.Book, title, none, none, none⟩

def getChapter (title : String) (params : List Char) : Option BookParams :=
  getMatchData title params .Chapter chapterPat

def getVerse (title : String) (params : List Char) : Option BookParams :=
  getMatchData title params .Verse versePat

def getVerseRange (title : String) (params : List Char) : Option BookParams :=
  getMatchData title params .VerseRange verseRangePat

/-- `get_search_params`; the outer `Option` is the (unreachable) panic layer
of `get_title`, the inner one is the Rust `Option<BookParams>`. -/
def getSearchParams (query : List Char) : Option (Option BookParams) :=
  match getTitle query with
  | none => none
  | some none => some none
  | some (some title) =>
    match getParams query with
    | none => some (some (getBook title))
    | some params =>
      match getVerseRange title params with
      | some vr => some (some vr)
      | none =>
        match getVerse title params with
        | some v => some (some v)
        | none =>
          match getChapter title params with
          | some c => some (some c)
          | none => some (some (getBook title))

/-- `get_sub_queries`: trim, split on commas, trim each piece; the head is
the first piece unless it is empty, the tail is everything after it. -/
def getSubQueries (query : List Char) : Option (List Char) × List (List Char) :=
  let v := (splitComma (trimChars query)).map trimChars
  let head : Option (List Char) :=
    match v.head? with
    | some [] => none
    | some s => some s
    | none => none
  (head, v.tail)

/-! ## search.rs: the selection resolver -/

structure Chapter where
  chapter : Nat
  verses : Finset Nat
deriving DecidableEq

structure BibleSearch where
  title : String
  chapter : Chapter
deriving DecidableEq

/-- The observable outcome of a Rust computation returning
`Result<T, String>`: a value, an error, a panic, or — in the fuel model of
the fallback recursion — divergence. -/
inductive Outcome (α : Type) where
  | ok : α → Outcome α
  | err : String → Outcome α
  | panic : String → Outcome α
  | diverge : Outcome α
deriving DecidableEq

/-- `unwrap_chapter`. -/
def unwrapChapter (book : String) (chapter : Option Nat) : Except String Nat :=
  match chapter with
  | some c =>
    if chapterExistsInBook book c then .ok c
    else .error "Chapter does not exist in book"
  | none => .error "No Chapter Start Found"

/-- `unwrap_verse`. -/
def unwrapVerse (book : String) (chapter : Nat) (verse : Option Nat) :
    Except String Nat :=
  match verse with
  | some v =>
    if verseExistsInChapter book chapter v then .ok v
    else .error "Verse Does Not Exist In Book"
  | none => .error "No Verse Start Found For Verse Search"

/-- `unwrap_verse_range`; the `verse_start.unwrap()` / `verse_end.unwrap()`
panics are the outer `none`. -/
def unwrapVerseRange (book : String) (chapter : Nat)
    (verseStart verseEnd : Option Nat) :
    Option (Except String (Finset Nat)) :=
  match verseStart with
  | none => none
  | some s =>
    match verseEnd with
    | none => none
    | some e =>
      some (match getVerseRangeFromParams book chapter s e with
        | some range => .ok range
        | none => .error "Verse Range Does Not Exist In Book")

/-- `chapter_to_bible_search`.  The `Err` branch of the source calls
`revert_to_book_search(params.title)`, which builds Book params and calls
`book_to_bible_search`, which in turn calls `chapter_to_bible_search` with
chapter 1; that composition is the recursive call below, paid for with one
unit of fuel.  The `.unwrap()` on the verse count is the `.panic` branch. -/
def chapterToBibleSearch : Nat → BookParams → Outcome BibleSearch
  | 0, _ => .diverge
  | fuel + 1, params =>
    match unwrapChapter params.title params.chapter with
    | .ok chapter =>
      match getVerseCountByBookAndChapter params.title chapter with
      | some versesInChapter =>
        .ok ⟨params.title, ⟨chapter, Finset.Icc 1 versesInChapter⟩⟩
      | none => .panic "called Option::unwrap() on a None value"
    | .error _ =>
      chapterToBibleSearch fuel ⟨.Chapter, params.title, some 1, none, none⟩

/-- `book_to_bible_search`: re-dispatch as a chapter-1 search. -/
def bookToBibleSearch (fuel : Nat) (params : BookParams) : Outcome BibleSearch :=
  chapterToBibleSearch fuel ⟨.Chapter, params.title, some 1, none, none⟩

/-- `revert_to_book_search`. -/
def revertToBookSearch (fuel : Nat) (title : String) : Outcome BibleSearch :=
  bookToBibleSearch fuel ⟨.Book, title, none, none, none⟩

/-- `revert_to_chapter_search`. -/
def revertToChapterSearch (fuel : Nat) (title : String) (chapter : Nat) :
    Outcome BibleSearch :=
  chapterToBibleSearch fuel ⟨.Chapter, title, some chapter, none, none⟩

/-- `verse_to_bible_search`. -/
def verseToBibleSearch (fuel : Nat) (params : BookParams) : Outcome BibleSearch :=
  match unwrapChapter params.title params.chapter with
  | .error _ => revertToBookSearch fuel params.title
  | .ok chapter =>
    match unwrapVerse params.title chapter params.verse_start with
    | .error _ => revertToChapterSearch fuel params.title chapter
    | .ok versesStart => .ok ⟨params.title, ⟨chapter, {versesStart}⟩⟩

/-- `verse_range_to_bible_search`. -/
def verseRangeToBibleSearch (fuel : Nat) (params : BookParams) :
    Outcome BibleSearch :=
  match unwrapChapter params.title params.chapter with
  | .error _ => revertToBookSearch fuel params.title
  | .ok chapter =>
    match unwrapVerseRange params.title chapter params.verse_start
        params.verse_end with
    | none => .panic "called Option::unwrap() on a None value"
    | some (.error _) => revertToChapterSearch fuel params.title chapter
    | some (.ok versesRange) =>
      .ok ⟨params.title, ⟨chapter, versesRange⟩⟩

/-- `process_query`; an absent `BookParams` is the "No Matching Search Format
Found" error, the outer panic layer of `get_search_params` is the ordinal
panic of `get_book_num_string`. -/
def processQuery (fuel : Nat) (query : List Char) : Outcome BibleSearch :=
  match getSearchParams query with
  | none => .panic "invalid book number"
  | some none => .err "No Matching Search Format Found"
  | some (some params) =>
    match params.search_type with
    | .Book => bookToBibleSearch fuel params
    | .Chapter => chapterToBibleSearch fuel params
    | .Verse => verseToBibleSearch fuel params
    | .VerseRange => verseRangeToBibleSearch fuel params

/-- `process_sub_queries`: parse each sub-query as `u8`, keep the verses that
exist in the chapter, collect into a set. -/
def processSubQueries (title : String) (chapter : Nat)
    (subs : List (List Char)) : Finset Nat :=
  ((subs.filterMap parseU8).filter fun v =>
    verseExistsInChapter title chapter v).toFinset

/-- `search`, on the characters of the query. -/
def searchChars (fuel : Nat) (query : List Char) : Outcome BibleSearch :=
  let q := getSubQueries query
  match q.1 with
  | none => .err "No Results Found"
  | some mainQ =>
    match processQuery fuel mainQ with
    | .ok main =>
      let subResults := processSubQueries main.title main.chapter.chapter q.2
      .ok ⟨main.title, ⟨main.chapter.chapter, main.chapter.verses ∪ subResults⟩⟩
    | .err e => .err e
    | .panic m => .panic m
    | .diverge => .diverge

/-- The public entry point `search(query: &str)`. -/
def search (fuel : Nat) (query : String) : Outcome BibleSearch :=
  searchChars fuel query.toList

/-! ## Auxiliary lemmas -/

theorem lookup_val_mem {β : Type} :
    ∀ (L : List (String × β)) (k : String) (v : β),
      L.lookup k = some v → ∃ kk, (kk, v) ∈ L := by
  intro L
  induction L with
  | nil => intro k v h; simp [List.lookup] at h
  | cons p t ih =>
    intro k v h
    by_cases hk : k = p.1
    · refine ⟨p.1, ?_⟩
      have hb : (k == p.1) = true := beq_iff_eq.mpr hk
      simp [List.lookup, hb] at h
      simp [← h]
    · have hb : (k == p.1) = false := beq_eq_false_iff_ne.mpr hk
      have : t.lookup k = some v := by
        simpa [List.lookup, hb] using h
      obtain ⟨kk, hm⟩ := ih k v this
      exact ⟨kk, List.mem_cons_of_mem _ hm⟩

theorem findSome?_mem {α β : Type} (f : α → Option β) :
    ∀ (L : List α) (b : β), L.findSome? f = some b → ∃ a ∈ L, f a = some b := by
  intro L
  induction L with
  | nil => intro b h; simp [List.findSome?] at h
  | cons a t ih =>
    intro b h
    rw [List.findSome?] at h
    cases ha : f a with
    | some b' =>
      rw [ha] at h
      exact ⟨a, List.mem_cons_self a t, by simpa [ha] using h⟩
    | none =>
      rw [ha] at h
      obtain ⟨x, hx, hfx⟩ := ih b h
      exact ⟨x, List.mem_cons_of_mem _ hx, hfx⟩

/-- Lockstep consistency of the chapter-count table (source, chapter.rs) with
the verse-count table (spec-modelled, verse.rs): same keys in the same order,
each verse list as long as the chapter count, every count positive. -/
def tablesAligned : List (String × Nat) → List (String × List Nat) → Bool
  | [], [] => true
  | (k1, n) :: t1, (k2, vs) :: t2 =>
    k1 == k2 && vs.length == n && vs.all (fun v => decide (1 ≤ v)) &&
      tablesAligned t1 t2
  | _ :: _, [] => false
  | [], _ :: _ => false

theorem tablesAligned_lookup :
    ∀ (L1 : List (String × Nat)) (L2 : List (String × List Nat)),
      tablesAligned L1 L2 = true →
      ∀ (k : String) (n : Nat), L1.lookup k = some n →
        ∃ vs, L2.lookup k = some vs ∧ vs.length = n ∧ ∀ v ∈ vs, 1 ≤ v := by
  intro L1
  induction L1 with
  | nil => intro L2 _ k n h; simp [List.lookup] at h
  | cons p t1 ih =>
    intro L2 ha k n h
    obtain ⟨k1, m⟩ := p
    cases L2 with
    | nil => simp [tablesAligned] at ha
    | cons q t2 =>
      obtain ⟨k2, vs⟩ := q
      rw [tablesAligned] at ha
      simp only [Bool.and_eq_true, beq_iff_eq, List.all_eq_true,
        decide_eq_true_eq] at ha
      obtain ⟨⟨⟨hk, hlen⟩, hpos⟩, ht⟩ := ha
      by_cases hkk : k = k1
      · have hb : (k == k1) = true := beq_iff_eq.mpr hkk
        simp [List.lookup, hb] at h
        have hb2 : (k == k2) = true := beq_iff_eq.mpr (by rw [hkk, hk])
        refine ⟨vs, ?_, by rw [hlen, h], hpos⟩
        simp [List.lookup, hb2]
      · have hb : (k == k1) = false := beq_eq_false_iff_ne.mpr hkk
        have h' : t1.lookup k = some n := by simpa [List.lookup, hb] using h
        obtain ⟨vs', hl, hlen', hpos'⟩ := ih t2 ht k n h'
        refine ⟨vs', ?_, hlen', hpos'⟩
        have hkk2 : ¬(k = k2) := by rw [← hk]; exact hkk
        have hb2 : (k == k2) = false := beq_eq_false_iff_ne.mpr hkk2
        simpa [List.lookup, hb2] using hl

set_option maxRecDepth 4000 in
theorem chapter_verse_tables_aligned :
    tablesAligned chapterCounts verseCounts = true := by decide

/-- A valid chapter always has a verse count, and it is positive. -/
theorem chapterExists_verseCount (t : String) (c : Nat)
    (h : chapterExistsInBook t c = true) :
    ∃ n, getVerseCountByBookAndChapter t c = some n ∧ 1 ≤ n := by
  rw [chapterExistsInBook] at h
  cases hl : getChapterCountByBook t with
  | none => rw [hl] at h; simp at h
  | some cnt =>
    rw [hl] at h
    simp only [Bool.and_eq_true, decide_eq_true_eq] at h
    obtain ⟨h1, h2⟩ := h
    obtain ⟨vs, hvl, hvlen, hvpos⟩ :=
      tablesAligned_lookup chapterCounts verseCounts
        chapter_verse_tables_aligned t cnt hl
    have hidx : c - 1 < vs.length := by omega
    refine ⟨vs.get ⟨c - 1, hidx⟩, ?_, hvpos _ (vs.get_mem _ _)⟩
    rw [getVerseCountByBookAndChapter, hvl]
    simp [h1, List.get?_eq_get hidx]

/-- Decoding `chapter_exists_in_book`. -/
theorem chapterExists_decode (t : String) (c : Nat)
    (h : chapterExistsInBook t c = true) :
    ∃ cnt, getChapterCountByBook t = some cnt ∧ 1 ≤ c ∧ c ≤ cnt := by
  rw [chapterExistsInBook] at h
  cases hl : getChapterCountByBook t with
  | none => rw [hl] at h; simp at h
  | some cnt =>
    rw [hl] at h
    simp only [Bool.and_eq_true, decide_eq_true_eq] at h
    exact ⟨cnt, rfl, h.1, h.2⟩

/-- Decoding `verse_exists_in_chapter`. -/
theorem verseExists_decode (t : String) (c v : Nat)
    (h : verseExistsInChapter t c v = true) :
    ∃ n, getVerseCountByBookAndChapter t c = some n ∧ 1 ≤ v ∧ v ≤ n := by
  rw [verseExistsInChapter] at h
  cases hl : getVerseCountByBookAndChapter t c with
  | none => rw [hl] at h; simp at h
  | some n =>
    rw [hl] at h
    simp only [Bool.and_eq_true, decide_eq_true_eq] at h
    exact ⟨n, rfl, h.1, h.2⟩

/-- Decoding `unwrap_chapter`. -/
theorem unwrapChapter_ok (t : String) (co : Option Nat) (c : Nat)
    (h : unwrapChapter t co = .ok c) :
    co = some c ∧ chapterExistsInBook t c = true := by
  cases co with
  | none => simp [unwrapChapter] at h
  | some c' =>
    rw [unwrapChapter] at h
    by_cases hc : chapterExistsInBook t c' = true
    · simp [hc] at h
      exact ⟨by rw [h], by rw [← h]; exact hc⟩
    · simp [hc] at h

/-- Decoding `unwrap_verse`. -/
theorem unwrapVerse_ok (t : String) (c : Nat) (vo : Option Nat) (v : Nat)
    (h : unwrapVerse t c vo = .ok v) :
    vo = some v ∧ verseExistsInChapter t c v = true := by
  cases vo with
  | none => simp [unwrapVerse] at h
  | some v' =>
    rw [unwrapVerse] at h
    by_cases hv : verseExistsInChapter t c v' = true
    · simp [hv] at h
      exact ⟨by rw [h], by rw [← h]; exact hv⟩
    · simp [hv] at h

set_option maxRecDepth 4000 in
theorem versePos_fact :
    verseCounts.all (fun p => p.2.all fun v => decide (1 ≤ v)) = true := by
  decide

theorem getVerseCount_pos (t : String) (c n : Nat)
    (h : getVerseCountByBookAndChapter t c = some n) : 1 ≤ n := by
  rw [getVerseCountByBookAndChapter] at h
  cases hl : verseCounts.lookup t with
  | none => rw [hl] at h; simp at h
  | some vs =>
    rw [hl] at h
    by_cases h1 : 1 ≤ c
    · simp only [h1, if_true] at h
      have hmem : n ∈ vs := List.get?_mem h
      obtain ⟨kk, hkv⟩ := lookup_val_mem _ _ _ hl
      have hall := List.all_eq_true.mp versePos_fact _ hkv
      have := List.all_eq_true.mp hall _ hmem
      simpa using this
    · simp [h1] at h

theorem getVerseCount_some_of_chapterExists (t : String) (c : Nat)
    (h : chapterExistsInBook t c = true) :
    ∃ n, getVerseCountByBookAndChapter t c = some n :=
  (chapterExists_verseCount t c h).elim fun n hn => ⟨n, hn.1⟩

/-- The well-formedness carried by every `ok` result of the handlers. -/
def SelOk (title : String) (sel : BibleSearch) : Prop :=
  sel.title = title ∧
  chapterExistsInBook title sel.chapter.chapter = true ∧
  ∃ n, getVerseCountByBookAndChapter title sel.chapter.chapter = some n ∧
    sel.chapter.verses.Nonempty ∧ sel.chapter.verses ⊆ Finset.Icc 1 n

theorem chapterToBibleSearch_ok :
    ∀ (fuel : Nat) (params : BookParams) (sel : BibleSearch),
      chapterToBibleSearch fuel params = .ok sel →
      sel.title = params.title ∧
      chapterExistsInBook params.title sel.chapter.chapter = true ∧
      ∃ n, getVerseCountByBookAndChapter params.title sel.chapter.chapter
          = some n ∧ sel.chapter.verses = Finset.Icc 1 n := by
  intro fuel
  induction fuel with
  | zero => intro params sel h; simp [chapterToBibleSearch] at h
  | succ f ih =>
    intro params sel h
    rw [chapterToBibleSearch] at h
    split at h
    · rename_i c hu
      split at h
      · rename_i n hv
        have hsel : sel = ⟨params.title, ⟨c, Finset.Icc 1 n⟩⟩ := by
          cases h; rfl
        subst hsel
        exact ⟨rfl, (unwrapChapter_ok _ _ _ hu).2, n, hv, rfl⟩
      · cases h
    · simpa using ih _ _ h

theorem chapterToBibleSearch_selOk (fuel : Nat) (params : BookParams)
    (sel : BibleSearch) (h : chapterToBibleSearch fuel params = .ok sel) :
    SelOk params.title sel := by
  obtain ⟨ht, hc, n, hv, hverses⟩ := chapterToBibleSearch_ok fuel params sel h
  refine ⟨ht, hc, n, hv, ?_, by rw [hverses]⟩
  rw [hverses]
  exact Finset.nonempty_Icc.mpr (getVerseCount_pos _ _ _ hv)

theorem bookToBibleSearch_selOk (fuel : Nat) (params : BookParams)
    (sel : BibleSearch) (h : bookToBibleSearch fuel params = .ok sel) :
    SelOk params.title sel := by
  rw [bookToBibleSearch] at h
  simpa using chapterToBibleSearch_selOk _ _ _ h

theorem verseToBibleSearch_selOk (fuel : Nat) (params : BookParams)
    (sel : BibleSearch) (h : verseToBibleSearch fuel params = .ok sel) :
    SelOk params.title sel := by
  rw [verseToBibleSearch] at h
  split at h
  · rw [revertToBookSearch] at h
    simpa using bookToBibleSearch_selOk _ _ _ h
  · rename_i c hu
    split at h
    · rw [revertToChapterSearch] at h
      simpa using chapterToBibleSearch_selOk _ _ _ h
    · rename_i v hv
      have hsel : sel = ⟨params.title, ⟨c, {v}⟩⟩ := by cases h; rfl
      subst hsel
      obtain ⟨n, hn, h1, h2⟩ :=
        verseExists_decode _ _ _ (unwrapVerse_ok _ _ _ _ hv).2
      refine ⟨rfl, (unwrapChapter_ok _ _ _ hu).2, n, hn,
        Finset.singleton_nonempty v, ?_⟩
      intro x hx
      rw [Finset.mem_singleton] at hx
      subst hx
      exact Finset.mem_Icc.mpr ⟨h1, h2⟩

theorem unwrapVerseRange_ok (t : String) (c : Nat) (vso veo : Option Nat)
    (r : Finset Nat)
    (h : unwrapVerseRange t c vso veo = some (.ok r)) :
    ∃ n, getVerseCountByBookAndChapter t c = some n ∧
      r.Nonempty ∧ r ⊆ Finset.Icc 1 n := by
  cases vso with
  | none => simp [unwrapVerseRange] at h
  | some s =>
    cases veo with
    | none => simp [unwrapVerseRange] at h
    | some e =>
      rw [unwrapVerseRange] at h
      simp only [Option.some.injEq] at h
      split at h
      · rename_i rr hg
        have hr : rr = r := by cases h; rfl
        subst hr
        rw [getVerseRangeFromParams] at hg
        split at hg
        · cases hg
        · rename_i cnt hv
          by_cases he : Finset.Icc s e ∩ Finset.Icc 1 cnt = ∅
          · simp [he] at hg
          · simp only [he, if_false] at hg
            have hrr : Finset.Icc s e ∩ Finset.Icc 1 cnt = rr := by
              simpa using hg
            refine ⟨cnt, hv, ?_, ?_⟩
            · rw [← hrr]
              exact Finset.nonempty_iff_ne_empty.mpr he
            · rw [← hrr]
              exact Finset.inter_subset_right
      · cases h

theorem verseRangeToBibleSearch_selOk (fuel : Nat) (params : BookParams)
    (sel : BibleSearch)
    (h : verseRangeToBibleSearch fuel params = .ok sel) :
    SelOk params.title sel := by
  rw [verseRangeToBibleSearch] at h
  split at h
  · rw [revertToBookSearch] at h
    simpa using bookToBibleSearch_selOk _ _ _ h
  · rename_i c hu
    split at h
    · cases h
    · rw [revertToChapterSearch] at h
      simpa using chapterToBibleSearch_selOk _ _ _ h
    · rename_i r hv
      have hsel : sel = ⟨params.title, ⟨c, r⟩⟩ := by cases h; rfl
      subst hsel
      obtain ⟨n, hn, hne, hsub⟩ := unwrapVerseRange_ok _ _ _ _ _ hv
      exact ⟨rfl, (unwrapChapter_ok _ _ _ hu).2, n, hn, hne, hsub⟩

set_option maxRecDepth 4000 in
theorem bookMatcher_keys : bookMatcher.map Prod.fst = canonicalTitles := by
  decide

theorem getProperTitle_mem (t : List Char) (k : String)
    (h : getProperTitle t = some k) : k ∈ canonicalTitles := by
  obtain ⟨a, ha, hf⟩ := findSome?_mem _ _ _ h
  by_cases hm : isFullMatch a.2 t = true
  · have hk : a.1 = k := by simpa [hm] using hf
    rw [← bookMatcher_keys, ← hk]
    exact List.mem_map_of_mem Prod.fst ha
  · simp [hm] at hf

theorem getTitle_mem (q : List Char) (t : String)
    (h : getTitle q = some (some t)) : t ∈ canonicalTitles := by
  rw [getTitle] at h
  split at h
  · simp at h
  · split at h
    · cases h
    · simp at h
    · rename_i tt hc
      simp only [Option.some.injEq] at h
      exact getProperTitle_mem tt t h

theorem getMatchData_fields (title : String) (params : List Char)
    (st : SearchType) (pat : Pat) (bp : BookParams)
    (h : getMatchData title params st pat = some bp) :
    bp.title = title ∧ bp.search_type = st := by
  rw [getMatchData] at h
  cases hf : fullCaps pat params with
  | none => rw [hf] at h; cases h
  | some caps =>
    rw [hf] at h
    have : bp = ⟨st, title, matchOrNone caps "chapter",
        matchOrNone caps "verse_start", matchOrNone caps "verse_end"⟩ := by
      cases h; rfl
    subst this
    exact ⟨rfl, rfl⟩

theorem getSearchParams_title (q : List Char) (p : BookParams)
    (h : getSearchParams q = some (some p)) : p.title ∈ canonicalTitles := by
  rw [getSearchParams] at h
  split at h
  · cases h
  · simp at h
  · rename_i title hgt
    have hmem := getTitle_mem q title hgt
    split at h
    · have hb : getBook title = p := by simpa using h
      rw [← hb]
      exact hmem
    · rename_i params hgp
      split at h
      · rename_i vr hvr
        have hb : vr = p := by simpa using h
        rw [← hb, (getMatchData_fields _ _ _ _ _ hvr).1]
        exact hmem
      · split at h
        · rename_i v hv
          have hb : v = p := by simpa using h
          rw [← hb, (getMatchData_fields _ _ _ _ _ hv).1]
          exact hmem
        · split at h
          · rename_i cc hc
            have hb : cc = p := by simpa using h
            rw [← hb, (getMatchData_fields _ _ _ _ _ hc).1]
            exact hmem
          · have hb : getBook title = p := by simpa using h
            rw [← hb]
            exact hmem

theorem processQuery_selOk (fuel : Nat) (q : List Char) (sel : BibleSearch)
    (h : processQuery fuel q = .ok sel) :
    sel.title ∈ canonicalTitles ∧ SelOk sel.title sel := by
  rw [processQuery] at h
  split at h
  · cases h
  · cases h
  · rename_i params hsp
    have hmem := getSearchParams_title q params hsp
    have hso : SelOk params.title sel := by
      split at h
      · exact bookToBibleSearch_selOk _ _ _ h
      · exact chapterToBibleSearch_selOk _ _ _ h
      · exact verseToBibleSearch_selOk _ _ _ h
      · exact verseRangeToBibleSearch_selOk _ _ _ h
    have htitle : sel.title = params.title := hso.1
    rw [← htitle] at hso hmem
    exact ⟨hmem, hso⟩

theorem processSubQueries_mem (title : String) (c : Nat)
    (subs : List (List Char)) (v : Nat)
    (h : v ∈ processSubQueries title c subs) :
    verseExistsInChapter title c v = true := by
  rw [processSubQueries, List.mem_toFinset] at h
  exact (List.mem_filter.mp h).2

set_option maxRecDepth 4000 in
theorem canon_chapter1 (t : String) (h : t ∈ canonicalTitles) :
    chapterExistsInBook t 1 = true := by
  have hall : canonicalTitles.all (fun s => chapterExistsInBook s 1) = true := by
    decide
  exact List.all_eq_true.mp hall t h

/-! ## The claims -/

/-- C2: for every input string on which `search` succeeds, the returned
selection is well-formed — its title is one of the 66 canonical titles of the
canon table, its chapter satisfies `1 ≤ chapter ≤ chapter_count(title)`,
its verse set is non-empty, and every verse `v` in it satisfies
`1 ≤ v ≤ verse_count(title, chapter)` — including verses added by comma
sub-queries. -/
theorem c2_success_selection_well_formed (fuel : Nat) (q : String)
    (sel : BibleSearch) (h : search fuel q = .ok sel) :
    sel.title ∈ canonicalTitles ∧
    (∃ ccnt, getChapterCountByBook sel.title = some ccnt ∧
      1 ≤ sel.chapter.chapter ∧ sel.chapter.chapter ≤ ccnt) ∧
    sel.chapter.verses.Nonempty ∧
    ∃ vcnt, getVerseCountByBookAndChapter sel.title sel.chapter.chapter
        = some vcnt ∧ ∀ v ∈ sel.chapter.verses, 1 ≤ v ∧ v ≤ vcnt := by
  rw [search, searchChars] at h
  dsimp only at h
  split at h
  · cases h
  · rename_i mainQ hmq
    split at h
    · rename_i main hpq
      obtain ⟨hmem, hso⟩ := processQuery_selOk fuel mainQ main hpq
      obtain ⟨_, hce, vcnt, hvc, hne, hsub⟩ := hso
      have hsel : sel = ⟨main.title, ⟨main.chapter.chapter,
          main.chapter.verses ∪ processSubQueries main.title
            main.chapter.chapter (getSubQueries q.toList).2⟩⟩ := by
        cases h; rfl
      subst hsel
      refine ⟨hmem, chapterExists_decode _ _ hce, ?_, vcnt, hvc, ?_⟩
      · obtain ⟨x, hx⟩ := hne
        exact ⟨x, Finset.mem_union_left _ hx⟩
      · intro v hv
        rcases Finset.mem_union.mp hv with hv' | hv'
        · have := Finset.mem_Icc.mp (hsub hv')
          exact ⟨this.1, this.2⟩
        · obtain ⟨n', hn', h1, h2⟩ :=
            verseExists_decode _ _ _ (processSubQueries_mem _ _ _ _ hv')
          rw [hvc] at hn'
          have : vcnt = n' := by cases hn'; rfl
          exact ⟨h1, by rw [this]; exact h2⟩
    · cases h
    · cases h
    · cases h

/-- Witness for C2 at the concrete query `"1 John"`. -/
theorem c2_witness :
    ("1 John" : String) ∈ canonicalTitles ∧
    (∃ ccnt, getChapterCountByBook "1 John" = some ccnt ∧
      1 ≤ (1 : Nat) ∧ 1 ≤ ccnt) ∧
    (Finset.Icc (1 : Nat) 10).Nonempty ∧
    (∃ vcnt, getVerseCountByBookAndChapter "1 John" 1 = some vcnt ∧
      ∀ v ∈ Finset.Icc (1 : Nat) 10, 1 ≤ v ∧ v ≤ vcnt) :=
  c2_success_selection_well_formed 2 "1 John"
    ⟨"1 John", ⟨1, Finset.Icc 1 10⟩⟩ (by decide)

/-- C4: when the head parses as `VerseRange{t, c, s, e}` — if chapter `c` is
valid, the verse set is `Icc s e ∩ Icc 1 (verse_count t c)` when that
intersection is non-empty (range clamped; `s > e` gives the empty
intersection); if the intersection is empty the result is the chapter search
for `(t, c)` (the whole chapter); if `c` is invalid the result is the book
search for `t` (chapter 1, all its verses). -/
theorem c4_verse_range_resolution (q : List Char) (t : String)
    (c s e fuel : Nat)
    (h : getSearchParams q =
      some (some ⟨.VerseRange, t, some c, some s, some e⟩)) :
    (∀ cnt, chapterExistsInBook t c = true →
      getVerseCountByBookAndChapter t c = some cnt →
      ((Finset.Icc s e ∩ Finset.Icc 1 cnt ≠ ∅ →
        processQuery (fuel + 1) q =
          .ok ⟨t, ⟨c, Finset.Icc s e ∩ Finset.Icc 1 cnt⟩⟩) ∧
       (Finset.Icc s e ∩ Finset.Icc 1 cnt = ∅ →
        processQuery (fuel + 1) q = .ok ⟨t, ⟨c, Finset.Icc 1 cnt⟩⟩)))
    ∧ (chapterExistsInBook t c = false →
        ∃ cnt1, getVerseCountByBookAndChapter t 1 = some cnt1 ∧
          processQuery (fuel + 1) q = .ok ⟨t, ⟨1, Finset.Icc 1 cnt1⟩⟩) := by
  have hpq : processQuery (fuel + 1) q =
      verseRangeToBibleSearch (fuel + 1)
        ⟨.VerseRange, t, some c, some s, some e⟩ := by
    rw [processQuery, h]
  constructor
  · intro cnt hce hvc
    have hu : unwrapChapter t (some c) = .ok c := by
      simp [unwrapChapter, hce]
    constructor
    · intro hne
      have hg : getVerseRangeFromParams t c s e =
          some (Finset.Icc s e ∩ Finset.Icc 1 cnt) := by
        rw [getVerseRangeFromParams, hvc]
        dsimp only
        rw [if_neg hne]
      have huv : unwrapVerseRange t c (some s) (some e) =
          some (.ok (Finset.Icc s e ∩ Finset.Icc 1 cnt)) := by
        rw [unwrapVerseRange, hg]
      rw [hpq, verseRangeToBibleSearch]
      dsimp only
      rw [hu]
      dsimp only
      rw [huv]
    · intro hem
      have hg : getVerseRangeFromParams t c s e = none := by
        rw [getVerseRangeFromParams, hvc]
        dsimp only
        rw [if_pos hem]
      have huv : unwrapVerseRange t c (some s) (some e) =
          some (.error "Verse Range Does Not Exist In Book") := by
        rw [unwrapVerseRange, hg]
      rw [hpq, verseRangeToBibleSearch]
      dsimp only
      rw [hu]
      dsimp only
      rw [huv]
      dsimp only
      rw [revertToChapterSearch, chapterToBibleSearch]
      dsimp only
      rw [hu]
      dsimp only
      rw [hvc]
  · intro hcef
    have hmem : t ∈ canonicalTitles := getSearchParams_title q _ h
    have hce1 : chapterExistsInBook t 1 = true := canon_chapter1 t hmem
    obtain ⟨cnt1, hvc1, _⟩ := chapterExists_verseCount t 1 hce1
    have hu : unwrapChapter t (some c) =
        .error "Chapter does not exist in book" := by
      simp [unwrapChapter, hcef]
    refine ⟨cnt1, hvc1, ?_⟩
    rw [hpq, verseRangeToBibleSearch]
    dsimp only
    rw [hu]
    dsimp only
    rw [revertToBookSearch, bookToBibleSearch, chapterToBibleSearch]
    dsimp only
    have hu1 : unwrapChapter t (some 1) = .ok 1 := by
      simp [unwrapChapter, hce1]
    rw [hu1]
    dsimp only
    rw [hvc1]

/-- Witness for C4 at the concrete query `"1 John 2:3-5"`. -/
theorem c4_witness :
    processQuery 1 ("1 John 2:3-5".toList) =
      .ok ⟨"1 John", ⟨2, Finset.Icc 3 5 ∩ Finset.Icc 1 29⟩⟩ :=
  ((c4_verse_range_resolution ("1 John 2:3-5".toList) "1 John" 2 3 5 0
      (by decide)).1 29 (by decide) (by decide)).1 (by decide)

/-- One unfolding step of `chapterToBibleSearch` at positive fuel. -/
theorem chapterToBibleSearch_step (g : Nat) (params : BookParams) :
    chapterToBibleSearch (g + 1) params =
      match unwrapChapter params.title params.chapter with
      | .ok chapter =>
        match getVerseCountByBookAndChapter params.title chapter with
        | some versesInChapter =>
          .ok ⟨params.title, ⟨chapter, Finset.Icc 1 versesInChapter⟩⟩
        | none => .panic "called Option::unwrap() on a None value"
      | .error _ =>
        chapterToBibleSearch g ⟨.Chapter, params.title, some 1, none, none⟩ :=
  by rw [chapterToBibleSearch]

/-- C6: every title the book recognizer can produce is a key of the
chapter-count table with chapter 1 valid, so the Book → Chapter-1 fallback
succeeds, and the mutual recursion of `chapter_to_bible_search`,
`revert_to_book_search` and `book_to_bible_search` stabilizes after at most
one fallback round trip: with fuel at least 2 the result no longer depends
on the fuel, and it is never the out-of-fuel (divergence) value. -/
theorem c6_fallback_terminates (q : List Char) (t : String)
    (h : getTitle q = some (some t)) :
    chapterExistsInBook t 1 = true ∧
    (∀ fuel, ∃ vcnt, getVerseCountByBookAndChapter t 1 = some vcnt ∧
      revertToBookSearch (fuel + 1) t = .ok ⟨t, ⟨1, Finset.Icc 1 vcnt⟩⟩) ∧
    (∀ params : BookParams, params.title = t → ∀ fuel,
      chapterToBibleSearch (fuel + 2) params = chapterToBibleSearch 2 params ∧
      chapterToBibleSearch (fuel + 2) params ≠ .diverge) := by
  have hmem := getTitle_mem q t h
  have hce1 := canon_chapter1 t hmem
  obtain ⟨vcnt, hvc1, _⟩ := chapterExists_verseCount t 1 hce1
  have hu1 : unwrapChapter t (some 1) = .ok 1 := by
    simp [unwrapChapter, hce1]
  have hbase : ∀ g, chapterToBibleSearch (g + 1)
      ⟨.Chapter, t, some 1, none, none⟩ =
      .ok ⟨t, ⟨1, Finset.Icc 1 vcnt⟩⟩ := by
    intro g
    rw [chapterToBibleSearch_step]
    dsimp only
    rw [hu1]
    dsimp only
    rw [hvc1]
  have hrev : ∀ g, revertToBookSearch (g + 1) t =
      .ok ⟨t, ⟨1, Finset.Icc 1 vcnt⟩⟩ := by
    intro g
    rw [revertToBookSearch, bookToBibleSearch]
    exact hbase g
  refine ⟨hce1, fun fuel => ⟨vcnt, hvc1, hrev fuel⟩, ?_⟩
  intro params hpt fuel
  subst hpt
  have e2 : (2 : Nat) = 1 + 1 := rfl
  have ef : fuel + 2 = (fuel + 1) + 1 := rfl
  cases hu : unwrapChapter params.title params.chapter with
  | ok c =>
    have hboth : ∀ g, chapterToBibleSearch (g + 1) params =
        match getVerseCountByBookAndChapter params.title c with
        | some n => .ok ⟨params.title, ⟨c, Finset.Icc 1 n⟩⟩
        | none => .panic "called Option::unwrap() on a None value" := by
      intro g
      rw [chapterToBibleSearch_step, hu]
    rw [ef, e2, hboth (fuel + 1), hboth 1]
    refine ⟨rfl, ?_⟩
    cases hv : getVerseCountByBookAndChapter params.title c with
    | some n => simp
    | none => simp
  | error e =>
    have hboth : ∀ g, chapterToBibleSearch (g + 1) params =
        chapterToBibleSearch g ⟨.Chapter, params.title, some 1, none, none⟩ := by
      intro g
      rw [chapterToBibleSearch_step, hu]
    rw [ef, e2, hboth (fuel + 1), hboth 1, hbase fuel, hbase 0]
    simp

/-- Witness for C6 at the concrete query `"Genesis"`. -/
theorem c6_witness :
    chapterExistsInBook "Genesis" 1 = true ∧
    (∃ vcnt, getVerseCountByBookAndChapter "Genesis" 1 = some vcnt ∧
      revertToBookSearch 1 "Genesis" = .ok ⟨"Genesis", ⟨1, Finset.Icc 1 vcnt⟩⟩) :=
  ⟨(c6_fallback_terminates ("Genesis".toList) "Genesis" (by decide)).1,
   (c6_fallback_terminates ("Genesis".toList) "Genesis" (by decide)).2.1 0⟩

theorem splitComma_ne_nil (l : List Char) : splitComma l ≠ [] := by
  cases l with
  | nil => simp [splitComma]
  | cons c rest =>
    rw [splitComma]
    by_cases hc : c = ','
    · simp [hc]
    · simp [hc]

/-- C7: `get_sub_queries` splits the trimmed query on ASCII commas and trims
each piece; the head is the first piece when it is non-empty and `none` when
the first piece trims to empty — even when a later piece is non-empty — and
the remaining pieces are returned trimmed, in order. -/
theorem c7_split_subqueries (q : List Char) :
    getSubQueries q =
      ((if ((splitComma (trimChars q)).map trimChars).headI = [] then none
        else some ((splitComma (trimChars q)).map trimChars).headI),
       ((splitComma (trimChars q)).map trimChars).tail) ∧
    getSubQueries (", John 1".toList) = (none, ["John 1".toList]) := by
  constructor
  · simp only [getSubQueries]
    obtain ⟨p, tl, hpt⟩ :
        ∃ p tl, (splitComma (trimChars q)).map trimChars = p :: tl := by
      cases hsc : splitComma (trimChars q) with
      | nil => exact absurd hsc (splitComma_ne_nil (trimChars q))
      | cons a b => exact ⟨trimChars a, b.map trimChars, by simp [hsc]⟩
    rw [hpt]
    cases p with
    | nil => simp
    | cons a b => simp
  · decide

/-- C8, counterexample: on `"John 3 John "` the head match is the region
`"John "`, so the claimed residue (the suffix after the head) would be
`"3 John "`; the code's `str::replace` also removes the second occurrence of
`"John "`, returning `"3 "`. -/
theorem c8_counterexample :
    headMatch ("John 3 John ".toList) =
      some ([("book_text", "John ".toList)], "John ".toList) ∧
    getParams ("John 3 John ".toList) = some ("3 ".toList) ∧
    ("3 ".toList : List Char) ≠ ("3 John ".toList : List Char) :=
  ⟨by decide, by decide, by decide⟩

/-- C8, amended: the residue returned by the book recognizer equals the
query with **every** occurrence of the matched head substring removed
(`str::replace` replaces all matches, not only the leading head region),
`none` when nothing remains. -/
theorem c8_amended_residue (q : List Char) (caps : Caps) (c0 : List Char)
    (h : headMatch q = some (caps, c0)) :
    getParams q =
      (if replaceAll c0 q = [] then none else some (replaceAll c0 q)) := by
  rw [getParams, h]
  by_cases hr : replaceAll c0 q = []
  · simp [hr]
  · simp [hr]

/-- Witness for the amended C8 at `"John 3 John "`. -/
theorem c8_amended_witness :
    getParams ("John 3 John ".toList) =
      (if replaceAll ("John ".toList) ("John 3 John ".toList) = [] then none
       else some (replaceAll ("John ".toList) ("John 3 John ".toList))) :=
  c8_amended_residue ("John 3 John ".toList)
    [("book_text", "John ".toList)] ("John ".toList) (by decide)

set_option maxRecDepth 100000 in
theorem c9_all_titles_check :
    canonicalTitles.all (fun s =>
      match getVerseCountByBookAndChapter s 1 with
      | some cnt => decide (search 2 s = .ok ⟨s, ⟨1, Finset.Icc 1 cnt⟩⟩)
      | none => false) = true := by decide

/-- C9: feeding any of the 66 canonical titles, exactly as the core emits
them, back into `search` succeeds and returns that book's whole first
chapter. -/
theorem c9_roundtrip_canonical_titles (t : String) (ht : t ∈ canonicalTitles) :
    ∃ cnt, getVerseCountByBookAndChapter t 1 = some cnt ∧
      search 2 t = .ok ⟨t, ⟨1, Finset.Icc 1 cnt⟩⟩ := by
  have hx := List.all_eq_true.mp c9_all_titles_check t ht
  cases hv : getVerseCountByBookAndChapter t 1 with
  | none => rw [hv] at hx; cases hx
  | some cnt =>
    rw [hv] at hx
    exact ⟨cnt, rfl, of_decide_eq_true hx⟩

/-- Witness for C9 at the canonical title `"Psalms"`. -/
theorem c9_witness :
    ∃ cnt, getVerseCountByBookAndChapter "Psalms" 1 = some cnt ∧
      search 2 "Psalms" = .ok ⟨"Psalms", ⟨1, Finset.Icc 1 cnt⟩⟩ :=
  c9_roundtrip_canonical_titles "Psalms" (by decide)

set_option maxRecDepth 100000 in
/-- C10: the bare name of a paired book (no ordinal prefix) is not
recognized and yields the "No Matching Search Format Found" error, while the
bare "John" resolves to the single book titled "John". -/
theorem c10_bare_paired_names :
    search 2 "Samuel" = .err "No Matching Search Format Found" ∧
    search 2 "Kings" = .err "No Matching Search Format Found" ∧
    search 2 "Chronicles" = .err "No Matching Search Format Found" ∧
    search 2 "Corinthians" = .err "No Matching Search Format Found" ∧
    search 2 "Thessalonians" = .err "No Matching Search Format Found" ∧
    search 2 "Timothy" = .err "No Matching Search Format Found" ∧
    search 2 "Peter" = .err "No Matching Search Format Found" ∧
    search 2 "John" = .ok ⟨"John", ⟨1, Finset.Icc 1 51⟩⟩ := by
  refine ⟨?_, ?_, ?_, ?_, ?_, ?_, ?_, ?_⟩ <;> decide

/-- C1 (code bug): on `"John 1:2-999"` the verse-range pattern matches, the
`999` fails the `u8` parse and is carried downstream as an absent
`verse_end`, and `unwrap_verse_range` panics on its `.unwrap()` — at every
fuel, `search` neither returns a Selection nor the no-match error. -/
theorem c1_panics_on_overflow_range (fuel : Nat) :
    search fuel "John 1:2-999" =
      .panic "called Option::unwrap() on a None value" := by
  rfl

/-- C3 (code bug): the reference parser does not treat an out-of-range
numeric as a failed pattern — on `"John 1:2-999"` it emits the VerseRange
shape with `verse_end` missing instead of falling through to the verse
shape. -/
theorem c3_overflow_emits_missing_field :
    getSearchParams ("John 1:2-999".toList) =
      some (some ⟨.VerseRange, "John", some 1, some 2, none⟩) ∧
    parseU8 ("999".toList) = none :=
  ⟨by decide, by decide⟩

/-- C5 (code bug): on `"Mark 2:3-999"` the book recognizer succeeds, yet
`search` neither returns a Selection nor one of the two error messages — it
panics. -/
theorem c5_recognized_book_panics (fuel : Nat) :
    getTitle ("Mark 2:3-999".toList) = some (some "Mark") ∧
    search fuel "Mark 2:3-999" =
      .panic "called Option::unwrap() on a None value" :=
  ⟨by decide, by rfl⟩

end BibleApi
